import Mathlib

/-!
Verification of the talatrivia game-session engine.

The definitions below are a shallow embedding of the backend source:
identifiers (UUIDs) are modelled as `Nat`, UTC timestamps as `Int`
seconds, the database as explicit lists of rows, and each use case as a
function from the database state to `Except DomainError (result × state)`.
Every definition mirrors one Python function or SQL statement of the
repository; the file then proves or refutes the frozen claims about them.
-/


namespace TalaTrivia

/-- `TriviaStatus` enum from `app/domain/enums/trivia_status.py`. -/
inductive TriviaStatus
  | draft
  | lobby
  | in_progress
  | finished
deriving DecidableEq, Repr

/-- `ParticipationStatus` enum from `app/domain/enums/participation_status.py`. -/
inductive ParticipationStatus
  | invited
  | joined
  | ready
  | finished
  | disconnected
deriving DecidableEq, Repr

/-- `Difficulty` enum from `app/domain/enums/difficulty.py`. -/
inductive Difficulty
  | easy
  | medium
  | hard
deriving DecidableEq, Repr

/-- `ScoreService.points_for` from `app/domain/services/score_service.py`:
difficulty→points mapping (the Python dict lookup has default 0, but the
enum is exhaustive). -/
def ScoreService.points_for : Difficulty → Int
  | .easy => 1
  | .medium => 2
  | .hard => 3

/-- `Trivia` domain entity (fields used by the engine). -/
structure Trivia where
  id : Nat
  created_by_user_id : Nat
  status : TriviaStatus
  current_question_index : Nat
  question_started_at : Option Int
  started_at : Option Int
  finished_at : Option Int
deriving DecidableEq, Repr

/-- `User` domain entity (fields used by the lobby views). -/
structure User where
  id : Nat
  name : String
deriving DecidableEq, Repr

/-- `Question` domain entity (fields used by the engine). -/
structure Question where
  id : Nat
  text : String
  difficulty : Difficulty
deriving DecidableEq, Repr

/-- `Option` domain entity (named `QuestionOption` here to avoid clashing
with Lean's `Option`). -/
structure QuestionOption where
  id : Nat
  question_id : Nat
  text : String
  is_correct : Bool
deriving DecidableEq, Repr

/-- `TriviaQuestion` binding entity. -/
structure TriviaQuestion where
  id : Nat
  trivia_id : Nat
  question_id : Nat
  position : Nat
  time_limit_seconds : Int
deriving DecidableEq, Repr

/-- `Participation` domain entity. -/
structure Participation where
  id : Nat
  trivia_id : Nat
  user_id : Nat
  status : ParticipationStatus
  score : Int
  joined_at : Option Int
  ready_at : Option Int
  finished_at : Option Int
  last_seen_at : Option Int
  fifty_fifty_used : Bool
  fifty_fifty_question_id : Option Nat
deriving DecidableEq, Repr

/-- `Answer` domain entity. -/
structure Answer where
  id : Nat
  participation_id : Nat
  trivia_question_id : Nat
  selected_option_id : Nat
  is_correct : Bool
  earned_points : Int
  answered_at : Int
deriving DecidableEq, Repr

/-- The persistent state: one list of rows per table. -/
structure DB where
  trivias : List Trivia
  users : List User
  questions : List Question
  options : List QuestionOption
  trivia_questions : List TriviaQuestion
  participations : List Participation
  answers : List Answer
deriving DecidableEq, Repr

/-- The error taxonomy of `app/domain/errors.py` (message strings omitted). -/
inductive DomainError
  | not_found
  | forbidden
  | invalid_state
  | conflict
deriving DecidableEq, Repr

/-! ### Repository lookups (`app/infrastructure/db/repositories/`) -/

/-- `TriviaRepository.get_by_id`. -/
def get_trivia_by_id (db : DB) (trivia_id : Nat) : Option Trivia :=
  db.trivias.find? (fun t => t.id == trivia_id)

/-- `ParticipationRepository.get_by_trivia_and_user`. -/
def get_participation_by_trivia_and_user (db : DB) (trivia_id user_id : Nat) :
    Option Participation :=
  db.participations.find? (fun p => p.trivia_id == trivia_id && p.user_id == user_id)

/-- `TriviaQuestionRepository.get_by_trivia_and_order`. -/
def get_trivia_question_by_trivia_and_order (db : DB) (trivia_id : Nat) (idx : Nat) :
    Option TriviaQuestion :=
  db.trivia_questions.find? (fun tq => tq.trivia_id == trivia_id && tq.position == idx)

/-- `QuestionRepository.get_by_id`. -/
def get_question_by_id (db : DB) (question_id : Nat) : Option Question :=
  db.questions.find? (fun q => q.id == question_id)

/-- `OptionRepository.list_by_question_id`. -/
def list_options_by_question_id (db : DB) (question_id : Nat) : List QuestionOption :=
  db.options.filter (fun o => o.question_id == question_id)

/-- `AnswerRepository.get_by_participation_and_trivia_question`. -/
def get_answer_by_participation_and_trivia_question (db : DB)
    (participation_id trivia_question_id : Nat) : Option Answer :=
  db.answers.find? (fun a =>
    a.participation_id == participation_id && a.trivia_question_id == trivia_question_id)

/-- `TriviaQuestionRepository.count_by_trivia`. -/
def count_trivia_questions_by_trivia (db : DB) (trivia_id : Nat) : Nat :=
  (db.trivia_questions.filter (fun tq => tq.trivia_id == trivia_id)).length

/-- `ParticipationRepository.list_by_trivia`: participations of a trivia
ordered by score descending (`ORDER BY score DESC`; a stable sort models
the SQL ordering deterministically). -/
def list_participations_by_trivia (db : DB) (trivia_id : Nat) : List Participation :=
  List.insertionSort (fun a b => b.score ≤ a.score)
    (db.participations.filter (fun p => p.trivia_id == trivia_id))

/-- `UserRepository.get_by_id` (also backs `get_by_ids`). -/
def get_user_by_id (db : DB) (user_id : Nat) : Option User :=
  db.users.find? (fun u => u.id == user_id)

/-- `TriviaRepository.update`: overwrite the trivia row with the given id. -/
def update_trivia (db : DB) (t : Trivia) : DB :=
  { db with trivias := db.trivias.map (fun u => if u.id == t.id then t else u) }

/-- `ParticipationRepository.update`: overwrite every column of the
participation row with the given id from the passed entity (a missing row
is silently ignored, as in the Python repository). -/
def update_participation (db : DB) (p : Participation) : DB :=
  { db with participations := db.participations.map (fun q => if q.id == p.id then p else q) }

/-- `COALESCE(SUM(earned_points), 0)` over one participation's answers
(the correlated subquery of `recompute_score`). -/
def answers_sum_for_participation (answers : List Answer) (participation_id : Nat) : Int :=
  ((answers.filter (fun a => a.participation_id == participation_id)).map
    (fun a => a.earned_points)).sum

/-- `ParticipationRepository.recompute_score`: a single SQL `UPDATE` that
sets `score` of every participation row matching `(trivia_id, user_id)` to
the correlated `COALESCE(SUM(earned_points),0)` over that row's answers,
returning the new score (`or 0` when no row matched). -/
def recompute_score (db : DB) (trivia_id user_id : Nat) : Int × DB :=
  let participations := db.participations.map (fun p =>
    if p.trivia_id == trivia_id && p.user_id == user_id then
      { p with score := answers_sum_for_participation db.answers p.id }
    else p)
  let new_score :=
    match participations.find? (fun p => p.trivia_id == trivia_id && p.user_id == user_id) with
    | some p => p.score
    | none => 0
  (new_score, { db with participations := participations })

/-! ### Submit answer (`app/application/use_cases/submit_answer.py`) -/

/-- Result DTO of `SubmitAnswerUseCase.execute`. -/
structure SubmitAnswerResultDTO where
  trivia_id : Nat
  question_id : Nat
  selected_option_id : Nat
  is_correct : Bool
  earned_points : Int
  total_score : Int
  time_remaining_seconds : Int
deriving DecidableEq, Repr

/-- `SubmitAnswerUseCase.execute`. `answered_at` is the (naive UTC)
submission instant; `new_answer_id` models `uuid.uuid4()` for the answer
row. Checks run in source order; the freshly scored path appends the
`Answer` row and then recomputes the participation score from the answer
log inside the same transaction. -/
def SubmitAnswerUseCase.execute (db : DB) (trivia_id user_id selected_option_id : Nat)
    (answered_at : Int) (new_answer_id : Nat) :
    Except DomainError (SubmitAnswerResultDTO × DB) :=
  match get_trivia_by_id db trivia_id with
  | none => .error .not_found
  | some trivia =>
    if trivia.status ≠ .in_progress then .error .invalid_state
    else
      match trivia.question_started_at with
      | none => .error .invalid_state
      | some question_started_at =>
        match get_participation_by_trivia_and_user db trivia_id user_id with
        | none => .error .not_found
        | some participation =>
          match get_trivia_question_by_trivia_and_order db trivia_id
              trivia.current_question_index with
          | none => .error .not_found
          | some trivia_question =>
            match get_question_by_id db trivia_question.question_id with
            | none => .error .not_found
            | some question =>
              let options := list_options_by_question_id db question.id
              match options.find? (fun o => o.id == selected_option_id) with
              | none => .error .not_found
              | some selected_option =>
                match get_answer_by_participation_and_trivia_question db
                    participation.id trivia_question.id with
                | some existing_answer =>
                  -- Idempotent read-back of the already-stored answer.
                  .ok (⟨trivia_id, question.id, existing_answer.selected_option_id,
                        existing_answer.is_correct, existing_answer.earned_points,
                        participation.score, 0⟩, db)
                | none =>
                  let elapsed := answered_at - question_started_at
                  let remaining := trivia_question.time_limit_seconds - elapsed
                  let time_remaining_seconds := max 0 remaining
                  let scored : Bool × Int :=
                    if time_remaining_seconds ≤ 0 then (false, 0)
                    else if selected_option.is_correct then
                      (true, ScoreService.points_for question.difficulty)
                    else (false, 0)
                  let answer : Answer :=
                    ⟨new_answer_id, participation.id, trivia_question.id,
                     selected_option_id, scored.1, scored.2, answered_at⟩
                  let db1 := { db with answers := db.answers ++ [answer] }
                  let recomputed := recompute_score db1 trivia_id user_id
                  .ok (⟨trivia_id, question.id, selected_option_id, scored.1, scored.2,
                        recomputed.1, time_remaining_seconds⟩, recomputed.2)

/-! ### Advance question (`app/application/use_cases/advance_question.py`) -/

/-- Result DTO of `AdvanceQuestionUseCase.execute`. -/
structure AdvanceQuestionResultDTO where
  trivia_id : Nat
  status : TriviaStatus
  current_question_index : Nat
  total_questions : Nat
deriving DecidableEq, Repr

/-- `AdvanceQuestionUseCase.execute`: creator-only, IN_PROGRESS-only; with
more questions left it increments the index and restarts the question
clock, otherwise it finishes the trivia. -/
def AdvanceQuestionUseCase.execute (db : DB) (trivia_id admin_user_id : Nat) (now : Int) :
    Except DomainError (AdvanceQuestionResultDTO × DB) :=
  match get_trivia_by_id db trivia_id with
  | none => .error .not_found
  | some trivia =>
    if trivia.created_by_user_id ≠ admin_user_id then .error .forbidden
    else if trivia.status ≠ .in_progress then .error .invalid_state
    else
      let total_questions := count_trivia_questions_by_trivia db trivia_id
      let trivia1 :=
        if trivia.current_question_index + 1 < total_questions then
          { trivia with
              current_question_index := trivia.current_question_index + 1,
              question_started_at := some now }
        else
          { trivia with
              status := .finished,
              question_started_at := none,
              finished_at := some now }
      .ok (⟨trivia_id, trivia1.status, trivia1.current_question_index, total_questions⟩,
           update_trivia db trivia1)

/-! ### Start trivia (`app/application/use_cases/start_trivia.py`) -/

/-- Result DTO of `StartTriviaUseCase.execute`. -/
structure StartTriviaDTO where
  trivia_id : Nat
  trivia_status : TriviaStatus
  started_at : Option Int
  current_question_index : Nat
deriving DecidableEq, Repr

/-- `StartTriviaUseCase.execute`. Note: the source counts a participation
as *present* when its `joined_at` is non-null; `last_seen_at` and the
presence TTL play no role in this use case. -/
def StartTriviaUseCase.execute (db : DB) (trivia_id admin_user_id : Nat) (now : Int) :
    Except DomainError (StartTriviaDTO × DB) :=
  match get_trivia_by_id db trivia_id with
  | none => .error .not_found
  | some trivia =>
    if trivia.created_by_user_id ≠ admin_user_id then .error .forbidden
    else if trivia.status ≠ .lobby then .error .invalid_state
    else
      let participations := list_participations_by_trivia db trivia_id
      let assigned_count := participations.length
      if assigned_count = 0 then .error .invalid_state
      else
        let present_count := participations.countP (fun p => p.joined_at != none)
        let ready_count := participations.countP (fun p => p.status == .ready)
        if present_count ≠ assigned_count then .error .conflict
        else if ready_count ≠ assigned_count then .error .conflict
        else
          let trivia1 := { trivia with
              status := .in_progress,
              started_at := some now,
              current_question_index := 0,
              question_started_at := some now }
          .ok (⟨trivia_id, trivia1.status, trivia1.started_at,
                trivia1.current_question_index⟩,
               update_trivia db trivia1)

/-! ### Reset trivia (`reset_trivia` in `app/infrastructure/api/routers/trivias.py`) -/

/-- `reset_trivia`: delete the answers of this trivia's participations,
zero those participations' scores (nothing else on the participation rows
is touched), and put the trivia back into LOBBY with cleared pointers. -/
def reset_trivia (db : DB) (trivia_id : Nat) : Except DomainError DB :=
  match get_trivia_by_id db trivia_id with
  | none => .error .not_found
  | some trivia =>
    let participation_ids :=
      (db.participations.filter (fun p => p.trivia_id == trivia_id)).map (fun p => p.id)
    let answers1 :=
      db.answers.filter (fun a => !(participation_ids.contains a.participation_id))
    let participations1 := db.participations.map (fun p =>
      if p.trivia_id == trivia_id then { p with score := 0 } else p)
    let trivia1 := { trivia with
        status := TriviaStatus.lobby,
        current_question_index := 0,
        question_started_at := none,
        started_at := none,
        finished_at := none }
    .ok (update_trivia { db with answers := answers1, participations := participations1 }
          trivia1)

/-! ### Heartbeat (`app/application/use_cases/update_heartbeat.py`) -/

/-- `UpdateHeartbeatUseCase.execute`: set the participation's
`last_seen_at` to now and write the entity back. -/
def UpdateHeartbeatUseCase.execute (db : DB) (trivia_id user_id : Nat) (now : Int) :
    Except DomainError DB :=
  match get_trivia_by_id db trivia_id with
  | none => .error .not_found
  | some _trivia =>
    match get_participation_by_trivia_and_user db trivia_id user_id with
    | none => .error .not_found
    | some participation =>
      .ok (update_participation db { participation with last_seen_at := some now })

/-! ### 50/50 lifeline (`app/application/use_cases/use_fifty_fifty_lifeline.py`) -/

/-- Option DTO (no `is_correct` exposed). -/
structure OptionDTO where
  id : Nat
  text : String
deriving DecidableEq, Repr

/-- Result DTO of `UseFiftyFiftyLifelineUseCase.execute`. -/
structure UseFiftyFiftyResultDTO where
  allowed_options : List OptionDTO
  fifty_fifty_used : Bool
deriving DecidableEq, Repr

/-- `UseFiftyFiftyLifelineUseCase.execute`. The two randomness draws are
made explicit parameters: `pick` selects the incorrect option
(`random.choice`, taken modulo the number of incorrect options) and
`shuffle_swap` tells whether `random.shuffle` swaps the returned pair. -/
def UseFiftyFiftyLifelineUseCase.execute (db : DB) (trivia_id question_id user_id : Nat)
    (pick : Nat) (shuffle_swap : Bool) :
    Except DomainError (UseFiftyFiftyResultDTO × DB) :=
  match get_trivia_by_id db trivia_id with
  | none => .error .not_found
  | some trivia =>
    if trivia.status ≠ .in_progress then .error .invalid_state
    else
      match get_participation_by_trivia_and_user db trivia_id user_id with
      | none => .error .not_found
      | some participation =>
        if participation.fifty_fifty_used then .error .conflict
        else
          match get_question_by_id db question_id with
          | none => .error .not_found
          | some _question =>
            match get_trivia_question_by_trivia_and_order db trivia_id
                trivia.current_question_index with
            | none => .error .not_found
            | some trivia_question =>
              if trivia_question.question_id ≠ question_id then .error .invalid_state
              else
                match get_answer_by_participation_and_trivia_question db
                    participation.id trivia_question.id with
                | some _ => .error .invalid_state
                | none =>
                  let options := list_options_by_question_id db question_id
                  if options.length < 4 then .error .invalid_state
                  else
                    match options.find? (fun o => o.is_correct) with
                    | none => .error .invalid_state
                    | some correct_option =>
                      let incorrect_options := options.filter (fun o => !o.is_correct)
                      if incorrect_options.length < 1 then .error .invalid_state
                      else
                        match incorrect_options[pick % incorrect_options.length]? with
                        | none => .error .invalid_state
                        | some selected_incorrect =>
                          let allowed_options_list :=
                            if shuffle_swap then [selected_incorrect, correct_option]
                            else [correct_option, selected_incorrect]
                          let participation1 := { participation with
                              fifty_fifty_used := true,
                              fifty_fifty_question_id := some question_id }
                          .ok (⟨allowed_options_list.map (fun o => OptionDTO.mk o.id o.text),
                                true⟩,
                               update_participation db participation1)

/-! ### Lobby views (`app/application/use_cases/get_admin_lobby_use_case.py`) -/

/-- `PRESENCE_TTL_SECONDS` from `app/core/config.py` (default 15). -/
def PRESENCE_TTL_SECONDS : Int := 15

/-- Per-player row of the lobby snapshots. -/
structure LobbyPlayerDTO where
  user_id : Nat
  name : String
  present : Bool
  ready : Bool
deriving DecidableEq, Repr

/-- Admin lobby snapshot DTO. -/
structure AdminLobbyDTO where
  assigned_count : Nat
  present_count : Nat
  ready_count : Nat
  players : List LobbyPlayerDTO
deriving DecidableEq, Repr

/-- Player lobby snapshot DTO. -/
structure LobbyDTO where
  players : List LobbyPlayerDTO
deriving DecidableEq, Repr

/-- One iteration of the participation loop of
`GetAdminLobbyUseCase.execute`: skip participations whose user row is
missing, otherwise derive `present` from the presence TTL and `ready`
from the participation status. -/
def lobby_row (db : DB) (now : Int) (p : Participation) : Option LobbyPlayerDTO :=
  match get_user_by_id db p.user_id with
  | none => none
  | some user =>
    let present :=
      match p.last_seen_at with
      | none => false
      | some seen => decide (now - seen ≤ PRESENCE_TTL_SECONDS)
    some ⟨p.user_id, user.name, present, p.status == .ready⟩

/-- `GetAdminLobbyUseCase.execute`: counts over the processed rows and the
player list stable-sorted by name ascending (Python `list.sort` with
`key=lambda p: p.name`; names are compared through their character lists,
which is exactly the string order — `String.le_iff_toList_le`). -/
def GetAdminLobbyUseCase.execute (db : DB) (trivia_id : Nat) (now : Int) :
    Except DomainError AdminLobbyDTO :=
  match get_trivia_by_id db trivia_id with
  | none => .error .not_found
  | some _trivia =>
    let participations := list_participations_by_trivia db trivia_id
    let rows := participations.filterMap (lobby_row db now)
    let players := List.insertionSort (fun a b => a.name.data ≤ b.name.data) rows
    .ok ⟨participations.length, rows.countP (fun r => r.present),
         rows.countP (fun r => r.ready), players⟩

/-- `GetAdminLobbyUseCase.execute_for_player`: the player view reuses the
admin computation and keeps only the rows. -/
def GetAdminLobbyUseCase.execute_for_player (db : DB) (trivia_id : Nat) (now : Int) :
    Except DomainError LobbyDTO :=
  match GetAdminLobbyUseCase.execute db trivia_id now with
  | .error e => .error e
  | .ok dto => .ok ⟨dto.players⟩

/-! ### Event-stream tickets (`app/infrastructure/sse/sse_manager.py`) -/

/-- One entry of the `SSEManager._tickets` map. -/
structure Ticket where
  token : Nat
  trivia_id : Nat
  user_id : Option Nat
  expires_at : Int
deriving DecidableEq, Repr

/-- The `SSEManager` ticket store. -/
structure TicketStore where
  tickets : List Ticket
deriving DecidableEq, Repr

/-- `SSEManager.validate_ticket`: an unknown token fails; an expired token
is deleted and fails; otherwise the stored `(trivia_id, user_id)` pair is
returned and the store is left as it was. -/
def SSEManager.validate_ticket (st : TicketStore) (token : Nat) (now : Int) :
    Option (Nat × Option Nat) × TicketStore :=
  match st.tickets.find? (fun t => t.token == token) with
  | none => (none, st)
  | some t =>
    if t.expires_at < now then
      (none, ⟨st.tickets.filter (fun u => u.token != token)⟩)
    else
      (some (t.trivia_id, t.user_id), st)

/-! ### Operation sequences over the state -/

/-- The state-mutating commands quantified over by the score invariant. -/
inductive Op
  | submit (trivia_id user_id selected_option_id : Nat) (answered_at : Int)
      (new_answer_id : Nat)
  | advance (trivia_id admin_user_id : Nat) (now : Int)
  | reset (trivia_id : Nat)

/-- Run one command; a failed command rolls back (leaves the state as it
was). -/
def apply_op (db : DB) (op : Op) : DB :=
  match op with
  | .submit tid uid oid t aid =>
    match SubmitAnswerUseCase.execute db tid uid oid t aid with
    | .ok r => r.2
    | .error _ => db
  | .advance tid uid t =>
    match AdvanceQuestionUseCase.execute db tid uid t with
    | .ok r => r.2
    | .error _ => db
  | .reset tid =>
    match reset_trivia db tid with
    | .ok db1 => db1
    | .error _ => db

/-- Run a sequence of commands. -/
def apply_ops (db : DB) (ops : List Op) : DB :=
  ops.foldl apply_op db

/-- Every participation's persisted score equals
`COALESCE(SUM(earned_points),0)` over its answer rows. -/
def score_invariant (db : DB) : Prop :=
  ∀ p ∈ db.participations, p.score = answers_sum_for_participation db.answers p.id

/-- Participation primary keys are distinct (database primary-key
well-formedness). -/
def participation_ids_nodup (db : DB) : Prop :=
  (db.participations.map (fun p => p.id)).Nodup

/-- AdvanceQuestion with failures rolled back, as iterated in claims about
question progression. -/
def apply_advance (db : DB) (trivia_id admin_user_id : Nat) (now : Int) : DB :=
  match AdvanceQuestionUseCase.execute db trivia_id admin_user_id now with
  | .ok r => r.2
  | .error _ => db

/-- Iterate AdvanceQuestion once per time in `ts`. -/
def iterate_advance (db : DB) (trivia_id admin_user_id : Nat) (ts : List Int) : DB :=
  ts.foldl (fun s t => apply_advance s trivia_id admin_user_id t) db



instance {e a : Type} [DecidableEq e] [DecidableEq a] : DecidableEq (Except e a)
  | .error x, .error y =>
    if h : x = y then .isTrue (by rw [h]) else .isFalse (by intro hc; cases hc; exact h rfl)
  | .error _, .ok _ => .isFalse (by intro hc; cases hc)
  | .ok _, .error _ => .isFalse (by intro hc; cases hc)
  | .ok x, .ok y =>
    if h : x = y then .isTrue (by rw [h]) else .isFalse (by intro hc; cases hc; exact h rfl)

instance : IsTrans LobbyPlayerDTO (fun a b => a.name.data ≤ b.name.data) :=
  ⟨fun _ _ _ hab hbc => le_trans hab hbc⟩

instance : IsTotal LobbyPlayerDTO (fun a b => a.name.data ≤ b.name.data) :=
  ⟨fun a b => le_total a.name.data b.name.data⟩

def lobby_cex_db : DB := {
  trivias := [⟨1, 9, .lobby, 0, none, none, none⟩],
  users := [⟨5, "Alex"⟩, ⟨6, "Alex"⟩],
  questions := [], options := [], trivia_questions := [],
  participations := [
    ⟨10, 1, 5, .ready, 0, some 50, some 50, none, some 95, false, none⟩,
    ⟨11, 1, 6, .ready, 5, some 50, some 50, none, some 95, false, none⟩],
  answers := [] }

instance (db : DB) : Decidable (participation_ids_nodup db) :=
  inferInstanceAs (Decidable ((db.participations.map
    (fun p : Participation => p.id)).Nodup))

instance (db : DB) : Decidable (score_invariant db) :=
  inferInstanceAs (Decidable (∀ p ∈ db.participations,
    p.score = answers_sum_for_participation db.answers p.id))

def wdb : DB := {
  trivias := [⟨1, 9, .in_progress, 0, some 100, some 100, none⟩],
  users := [⟨5, "Ana"⟩],
  questions := [⟨20, "q1", .medium⟩],
  options := [⟨31, 20, "a", true⟩, ⟨32, 20, "b", false⟩,
              ⟨33, 20, "c", false⟩, ⟨34, 20, "d", false⟩],
  trivia_questions := [⟨40, 1, 20, 0, 30⟩],
  participations := [⟨10, 1, 5, .ready, 0, some 100, some 100, none, some 100, false, none⟩],
  answers := [] }

def wdb2 : DB := {
  trivias := [⟨1, 9, .in_progress, 0, some 100, some 100, none⟩],
  users := [⟨5, "Ana"⟩],
  questions := [⟨20, "q1", .medium⟩],
  options := [⟨31, 20, "a", true⟩, ⟨32, 20, "b", false⟩,
              ⟨33, 20, "c", false⟩, ⟨34, 20, "d", false⟩],
  trivia_questions := [⟨40, 1, 20, 0, 30⟩],
  participations := [⟨10, 1, 5, .ready, 2, some 100, some 100, none, some 100, false, none⟩],
  answers := [⟨70, 10, 40, 31, true, 2, 105⟩] }

def wdb_lobby : DB := {
  trivias := [⟨1, 9, .lobby, 0, none, none, none⟩],
  users := [⟨5, "Ana"⟩],
  questions := [], options := [], trivia_questions := [],
  participations := [⟨10, 1, 5, .ready, 0, some 50, some 50, none, some 50, false, none⟩],
  answers := [] }

def start_cex_db : DB := {
  trivias := [⟨1, 9, .lobby, 0, none, none, none⟩],
  users := [⟨5, "Ana"⟩],
  questions := [], options := [], trivia_questions := [],
  participations := [⟨10, 1, 5, .ready, 0, some 0, some 0, none, none, false, none⟩],
  answers := [] }

def ticket_cex_store : TicketStore := ⟨[⟨42, 1, some 5, 100⟩]⟩

def reset_cex_db : DB := {
  trivias := [⟨1, 9, .finished, 0, none, some 100, some 200⟩],
  users := [⟨5, "Ana"⟩],
  questions := [⟨20, "q1", .easy⟩],
  options := [⟨31, 20, "a", true⟩],
  trivia_questions := [⟨40, 1, 20, 0, 30⟩],
  participations := [⟨10, 1, 5, .ready, 1, some 50, some 50, none, some 50, true, some 20⟩],
  answers := [⟨70, 10, 40, 31, true, 1, 105⟩] }

def advance_cex_db : DB := {
  trivias := [⟨1, 9, .lobby, 0, none, none, none⟩],
  users := [⟨5, "Ana"⟩],
  questions := [], options := [], trivia_questions := [],
  participations := [⟨10, 1, 5, .ready, 0, some 50, some 50, none, some 50, false, none⟩],
  answers := [] }

/-- Claim C2: if an Answer already exists for (the user's participation, the
current trivia-question), a subsequent SubmitAnswer — whatever option of the
current question it selects — creates no new Answer and changes no state; it
returns the stored is-correct and earned-points of the existing Answer, the
participation's current persisted score as total-score, and
time-remaining-seconds 0. -/
theorem submit_answer_idempotent (db : DB) (trivia_id user_id selected_option_id : Nat)
    (answered_at : Int) (new_answer_id : Nat)
    (trivia : Trivia) (participation : Participation) (trivia_question : TriviaQuestion)
    (question : Question) (selected_option : QuestionOption) (existing_answer : Answer)
    (question_started_at : Int)
    (hT : get_trivia_by_id db trivia_id = some trivia)
    (hstatus : trivia.status = .in_progress)
    (hqsa : trivia.question_started_at = some question_started_at)
    (hP : get_participation_by_trivia_and_user db trivia_id user_id = some participation)
    (hTQ : get_trivia_question_by_trivia_and_order db trivia_id trivia.current_question_index = some trivia_question)
    (hQ : get_question_by_id db trivia_question.question_id = some question)
    (hO : (list_options_by_question_id db question.id).find? (fun o => o.id == selected_option_id) = some selected_option)
    (hA : get_answer_by_participation_and_trivia_question db participation.id trivia_question.id = some existing_answer) :
    SubmitAnswerUseCase.execute db trivia_id user_id selected_option_id answered_at new_answer_id =
      .ok (⟨trivia_id, question.id, existing_answer.selected_option_id,
            existing_answer.is_correct, existing_answer.earned_points,
            participation.score, 0⟩, db) := by
  simp only [SubmitAnswerUseCase.execute, hT, hstatus, hqsa, hP, hTQ, hQ, hO, hA]
  simp



/-- Claim C3: for the first SubmitAnswer of a participation on the current
question, with elapsed = answered-at − question-started-at and
remaining = time-limit − elapsed: if remaining ≤ 0 (in particular whenever
elapsed ≥ time-limit) the answer is scored incorrect with 0 points regardless
of the selected option; otherwise a correct selection earns
points-for(difficulty) with EASY=1, MEDIUM=2, HARD=3, and an incorrect
selection earns 0. -/
theorem submit_answer_scoring (db : DB) (trivia_id user_id selected_option_id : Nat)
    (answered_at : Int) (new_answer_id : Nat)
    (trivia : Trivia) (participation : Participation) (trivia_question : TriviaQuestion)
    (question : Question) (selected_option : QuestionOption)
    (question_started_at : Int)
    (hT : get_trivia_by_id db trivia_id = some trivia)
    (hstatus : trivia.status = .in_progress)
    (hqsa : trivia.question_started_at = some question_started_at)
    (hP : get_participation_by_trivia_and_user db trivia_id user_id = some participation)
    (hTQ : get_trivia_question_by_trivia_and_order db trivia_id trivia.current_question_index = some trivia_question)
    (hQ : get_question_by_id db trivia_question.question_id = some question)
    (hO : (list_options_by_question_id db question.id).find? (fun o => o.id == selected_option_id) = some selected_option)
    (hA : get_answer_by_participation_and_trivia_question db participation.id trivia_question.id = none) :
    ∃ dto db1,
      SubmitAnswerUseCase.execute db trivia_id user_id selected_option_id answered_at new_answer_id = .ok (dto, db1) ∧
      (ScoreService.points_for .easy = 1 ∧ ScoreService.points_for .medium = 2 ∧ ScoreService.points_for .hard = 3) ∧
      (trivia_question.time_limit_seconds - (answered_at - question_started_at) ≤ 0 →
        dto.is_correct = false ∧ dto.earned_points = 0) ∧
      (0 < trivia_question.time_limit_seconds - (answered_at - question_started_at) →
        selected_option.is_correct = true →
        dto.is_correct = true ∧ dto.earned_points = ScoreService.points_for question.difficulty) ∧
      (0 < trivia_question.time_limit_seconds - (answered_at - question_started_at) →
        selected_option.is_correct = false →
        dto.is_correct = false ∧ dto.earned_points = 0) ∧
      (answered_at - question_started_at ≥ trivia_question.time_limit_seconds →
        dto.is_correct = false ∧ dto.earned_points = 0) := by
  have hne : ¬(TriviaStatus.in_progress ≠ TriviaStatus.in_progress) := by simp
  simp only [SubmitAnswerUseCase.execute, hT, hstatus, hqsa, hP, hTQ, hQ, hO, hA]
  rw [if_neg hne]
  refine ⟨_, _, rfl, ⟨rfl, rfl, rfl⟩, ?_, ?_, ?_, ?_⟩
  · intro h
    rw [if_pos (max_le le_rfl h)]
    exact ⟨rfl, rfl⟩
  · intro h hc
    rw [if_neg (fun hle => absurd (le_trans (le_max_right _ _) hle) (not_le.mpr h)), if_pos hc]
    exact ⟨rfl, rfl⟩
  · intro h hc
    rw [if_neg (fun hle => absurd (le_trans (le_max_right _ _) hle) (not_le.mpr h)),
      if_neg (by simp [hc])]
    exact ⟨rfl, rfl⟩
  · intro h
    rw [if_pos (max_le le_rfl (by omega))]
    exact ⟨rfl, rfl⟩



theorem answers_sum_append_single (A : List Answer) (a : Answer) (pid : Nat) :
    answers_sum_for_participation (A ++ [a]) pid =
      answers_sum_for_participation A pid +
        (if a.participation_id == pid then a.earned_points else 0) := by
  simp only [answers_sum_for_participation, List.filter_append, List.map_append,
    List.sum_append, List.filter_cons, List.filter_nil]
  split <;> simp

theorem submit_state_shape (db : DB) (tid uid oid : Nat) (t : Int) (aid : Nat)
    (r : SubmitAnswerResultDTO × DB)
    (hex : SubmitAnswerUseCase.execute db tid uid oid t aid = .ok r) :
    r.2 = db ∨
    ∃ P a, get_participation_by_trivia_and_user db tid uid = some P ∧
      a.participation_id = P.id ∧
      r.2.answers = db.answers ++ [a] ∧
      r.2.participations = db.participations.map (fun p =>
        if p.trivia_id == tid && p.user_id == uid then
          { p with score := answers_sum_for_participation (db.answers ++ [a]) p.id }
        else p) := by
  simp only [SubmitAnswerUseCase.execute] at hex
  split at hex
  next => exact absurd hex (by simp)
  next trivia htrivia =>
    split at hex
    next => exact absurd hex (by simp)
    next hstat =>
      split at hex
      next => exact absurd hex (by simp)
      next qsa hqsa =>
        split at hex
        next => exact absurd hex (by simp)
        next part hpart =>
          split at hex
          next => exact absurd hex (by simp)
          next tq htq =>
            split at hex
            next => exact absurd hex (by simp)
            next q hq =>
              split at hex
              next => exact absurd hex (by simp)
              next opt hopt =>
                split at hex
                next ans hans =>
                  left
                  cases hex
                  rfl
                next hans =>
                  right
                  cases hex
                  exact ⟨part, _, hpart, rfl, rfl, rfl⟩


theorem participation_find_mem_match (db : DB) (tid uid : Nat) (P : Participation)
    (hP : get_participation_by_trivia_and_user db tid uid = some P) :
    P ∈ db.participations ∧ (P.trivia_id == tid && P.user_id == uid) = true := by
  simp only [get_participation_by_trivia_and_user] at hP
  have hmem := List.mem_of_find?_eq_some hP
  have hmatch := List.find?_some hP
  exact ⟨hmem, hmatch⟩

theorem map_participation_ids_of_score_update (l : List Participation)
    (f : Participation → Participation) (hf : ∀ p, (f p).id = p.id) :
    (l.map f).map (fun p => p.id) = l.map (fun p => p.id) := by
  rw [List.map_map]
  exact List.map_congr_left (fun a _ => hf a)

theorem score_invariant_after_submit (db : DB) (tid uid oid : Nat) (t : Int) (aid : Nat)
    (hnodup : participation_ids_nodup db) (hinv : score_invariant db) :
    score_invariant (apply_op db (.submit tid uid oid t aid)) := by
  simp only [apply_op]
  cases hex : SubmitAnswerUseCase.execute db tid uid oid t aid with
  | error e => exact hinv
  | ok r =>
    show score_invariant r.2
    rcases submit_state_shape db tid uid oid t aid r hex with hsame | ⟨P, a, hP, hpid, hans, hparts⟩
    · rw [hsame]; exact hinv
    · intro p hp
      rw [hparts] at hp
      rcases List.mem_map.mp hp with ⟨q, hq, rfl⟩
      by_cases hmatch : (q.trivia_id == tid && q.user_id == uid) = true
      · rw [if_pos hmatch]
        rw [hans]
      · rw [if_neg hmatch]
        have hqP : q.id ≠ P.id := by
          intro he
          rcases participation_find_mem_match db tid uid P hP with ⟨hPmem, hPmatch⟩
          have hqeqP : q = P := List.inj_on_of_nodup_map hnodup hq hPmem he
          rw [hqeqP] at hmatch
          exact hmatch hPmatch
        have hbne : (a.participation_id == q.id) = false := by
          rw [hpid]
          exact beq_eq_false_iff_ne.mpr (Ne.symm hqP)
        rw [hans, answers_sum_append_single, hbne]
        simpa using hinv q hq

theorem reset_state_shape (db : DB) (tid : Nat) (db1 : DB)
    (hex : reset_trivia db tid = .ok db1) :
    db1.answers = db.answers.filter (fun a =>
      !(((db.participations.filter (fun p => p.trivia_id == tid)).map
          (fun p => p.id)).contains a.participation_id)) ∧
    db1.participations = db.participations.map (fun p =>
      if p.trivia_id == tid then { p with score := 0 } else p) := by
  simp only [reset_trivia] at hex
  split at hex
  next => exact absurd hex (by simp)
  next trivia htrivia =>
    cases hex
    exact ⟨rfl, rfl⟩

theorem score_invariant_after_reset (db : DB) (tid : Nat)
    (hnodup : participation_ids_nodup db) (hinv : score_invariant db) :
    score_invariant (apply_op db (.reset tid)) := by
  simp only [apply_op]
  cases hex : reset_trivia db tid with
  | error e => exact hinv
  | ok db1 =>
    show score_invariant db1
    rcases reset_state_shape db tid db1 hex with ⟨hans, hparts⟩
    intro p hp
    rw [hparts] at hp
    rcases List.mem_map.mp hp with ⟨q, hq, rfl⟩
    by_cases hmatch : (q.trivia_id == tid) = true
    · rw [if_pos hmatch]
      have hnil : db1.answers.filter (fun a => a.participation_id == q.id) = [] := by
        rw [List.filter_eq_nil_iff]
        intro a ha habs
        rw [hans, List.mem_filter] at ha
        rcases ha with ⟨_, hnc⟩
        have hpe : a.participation_id = q.id := by simpa using habs
        have hqin : q.id ∈ (db.participations.filter
            (fun p => p.trivia_id == tid)).map (fun p => p.id) :=
          List.mem_map.mpr ⟨q, List.mem_filter.mpr ⟨hq, hmatch⟩, rfl⟩
        rw [hpe] at hnc
        simp only [List.contains, List.elem_eq_mem, Bool.not_eq_eq_eq_not, Bool.not_true,
          decide_eq_false_iff_not] at hnc
        exact hnc hqin
      simp [answers_sum_for_participation, hnil]
    · rw [if_neg hmatch]
      have hqout : q.id ∉ (db.participations.filter
          (fun p => p.trivia_id == tid)).map (fun p => p.id) := by
        intro habs
        rcases List.mem_map.mp habs with ⟨p0, hp0, hid⟩
        rcases List.mem_filter.mp hp0 with ⟨hp0mem, hp0match⟩
        have : p0 = q := List.inj_on_of_nodup_map hnodup hp0mem hq hid
        rw [this] at hp0match
        exact hmatch hp0match
      have hfilter : db1.answers.filter (fun a => a.participation_id == q.id) =
          db.answers.filter (fun a => a.participation_id == q.id) := by
        rw [hans, List.filter_filter]
        refine List.filter_congr (fun a _ => ?_)
        by_cases hpa : (a.participation_id == q.id) = true
        · have hpe : a.participation_id = q.id := by simpa using hpa
          have hnotin : ((db.participations.filter (fun p => p.trivia_id == tid)).map
              (fun p => p.id)).contains a.participation_id = false := by
            rw [hpe]
            simp only [List.contains, List.elem_eq_mem, decide_eq_false_iff_not]
            exact hqout
          rw [hpa, hnotin]
          rfl
        · have hpa2 : (a.participation_id == q.id) = false := by
            simpa using hpa
          rw [hpa2]
          simp
      have hq2 := hinv q hq
      simp only [answers_sum_for_participation] at hq2 ⊢
      rw [hfilter]
      exact hq2

theorem advance_state_shape (db : DB) (tid uid : Nat) (now : Int)
    (r : AdvanceQuestionResultDTO × DB)
    (hex : AdvanceQuestionUseCase.execute db tid uid now = .ok r) :
    r.2.participations = db.participations ∧ r.2.answers = db.answers := by
  simp only [AdvanceQuestionUseCase.execute] at hex
  split at hex
  next => exact absurd hex (by simp)
  next trivia htrivia =>
    split at hex
    next => exact absurd hex (by simp)
    next hcreator =>
      split at hex
      next => exact absurd hex (by simp)
      next hstat =>
        cases hex
        exact ⟨rfl, rfl⟩

theorem score_invariant_after_advance (db : DB) (tid uid : Nat) (now : Int)
    (hinv : score_invariant db) :
    score_invariant (apply_op db (.advance tid uid now)) := by
  simp only [apply_op]
  cases hex : AdvanceQuestionUseCase.execute db tid uid now with
  | error e => exact hinv
  | ok r =>
    rcases advance_state_shape db tid uid now r hex with ⟨hparts, hans⟩
    intro p hp
    rw [hparts] at hp
    rw [hans]
    exact hinv p hp


theorem nodup_after_apply_op (db : DB) (op : Op)
    (hnodup : participation_ids_nodup db) :
    participation_ids_nodup (apply_op db op) := by
  cases op with
  | submit tid uid oid t aid =>
    simp only [apply_op]
    cases hex : SubmitAnswerUseCase.execute db tid uid oid t aid with
    | error e => exact hnodup
    | ok r =>
      show participation_ids_nodup r.2
      rcases submit_state_shape db tid uid oid t aid r hex with hsame | ⟨P, a, hP, hpid, hans, hparts⟩
      · rw [hsame]; exact hnodup
      · show (r.2.participations.map (fun p => p.id)).Nodup
        rw [hparts, map_participation_ids_of_score_update]
        · exact hnodup
        · intro p
          by_cases hm : (p.trivia_id == tid && p.user_id == uid) = true
          · rw [if_pos hm]
          · rw [if_neg hm]
  | advance tid uid t =>
    simp only [apply_op]
    cases hex : AdvanceQuestionUseCase.execute db tid uid t with
    | error e => exact hnodup
    | ok r =>
      show participation_ids_nodup r.2
      rcases advance_state_shape db tid uid t r hex with ⟨hparts, hans⟩
      show (r.2.participations.map (fun p => p.id)).Nodup
      rw [hparts]
      exact hnodup
  | reset tid =>
    simp only [apply_op]
    cases hex : reset_trivia db tid with
    | error e => exact hnodup
    | ok db1 =>
      show participation_ids_nodup db1
      rcases reset_state_shape db tid db1 hex with ⟨hans, hparts⟩
      show (db1.participations.map (fun p => p.id)).Nodup
      rw [hparts, map_participation_ids_of_score_update]
      · exact hnodup
      · intro p
        by_cases hm : (p.trivia_id == tid) = true
        · rw [if_pos hm]
        · rw [if_neg hm]

theorem score_invariant_after_apply_op (db : DB) (op : Op)
    (hnodup : participation_ids_nodup db) (hinv : score_invariant db) :
    score_invariant (apply_op db op) := by
  cases op with
  | submit tid uid oid t aid => exact score_invariant_after_submit db tid uid oid t aid hnodup hinv
  | advance tid uid t => exact score_invariant_after_advance db tid uid t hinv
  | reset tid => exact score_invariant_after_reset db tid hnodup hinv

theorem apply_ops_preserves (ops : List Op) (db : DB)
    (hnodup : participation_ids_nodup db) (hinv : score_invariant db) :
    participation_ids_nodup (apply_ops db ops) ∧ score_invariant (apply_ops db ops) := by
  induction ops generalizing db with
  | nil => exact ⟨hnodup, hinv⟩
  | cons op rest ih =>
    have h1 := nodup_after_apply_op db op hnodup
    have h2 := score_invariant_after_apply_op db op hnodup hinv
    simpa [apply_ops] using ih (apply_op db op) h1 h2


theorem find?_trivia_update (l : List Trivia) (tid : Nat) (T T2 : Trivia)
    (hfind : l.find? (fun t => t.id == tid) = some T) (hid : T2.id = T.id) :
    (l.map (fun u => if u.id == T2.id then T2 else u)).find? (fun t => t.id == tid) =
      some T2 := by
  have hTid : T.id = tid := by
    have h := List.find?_some hfind
    simpa using h
  induction l with
  | nil => simp at hfind
  | cons a l ih =>
    rw [List.find?_cons] at hfind
    by_cases ha : (a.id == tid) = true
    · rw [ha] at hfind
      have haT : a = T := by simpa using hfind
      have hcond : (a.id == T2.id) = true := by
        rw [haT, hid]
        simp
      simp only [List.map_cons, if_pos hcond, List.find?_cons]
      rw [show (T2.id == tid) = true from by rw [hid, hTid]; simp]
    · rw [show (a.id == tid) = false from by simpa using ha] at hfind
      have hane : ¬(a.id == T2.id) = true := by
        rw [hid, hTid]
        simpa using ha
      simp only [List.map_cons, if_neg hane, List.find?_cons]
      rw [show (a.id == tid) = false from by simpa using ha]
      exact ih hfind

theorem find?_participation_update (l : List Participation) (m : Participation → Bool)
    (P P2 : Participation) (hfind : l.find? m = some P) (hm2 : m P2 = true)
    (hid : P2.id = P.id) :
    (l.map (fun q => if q.id == P2.id then P2 else q)).find? m = some P2 := by
  induction l with
  | nil => simp at hfind
  | cons a l ih =>
    rw [List.find?_cons] at hfind
    by_cases ha : m a = true
    · rw [ha] at hfind
      have haP : a = P := by simpa using hfind
      have hcond : (a.id == P2.id) = true := by
        rw [haP, hid]
        simp
      simp only [List.map_cons, if_pos hcond, List.find?_cons, hm2]
    · rw [show m a = false from by simpa using ha] at hfind
      by_cases hb : (a.id == P2.id) = true
      · simp only [List.map_cons, if_pos hb, List.find?_cons, hm2]
      · simp only [List.map_cons, if_neg hb, List.find?_cons]
        rw [show m a = false from by simpa using ha]
        exact ih hfind


theorem advance_step_more (db : DB) (tid uid : Nat) (now : Int) (T : Trivia)
    (hT : get_trivia_by_id db tid = some T)
    (hc : T.created_by_user_id = uid)
    (hs : T.status = .in_progress)
    (hlt : T.current_question_index + 1 < count_trivia_questions_by_trivia db tid) :
    AdvanceQuestionUseCase.execute db tid uid now =
      .ok (⟨tid, .in_progress, T.current_question_index + 1,
            count_trivia_questions_by_trivia db tid⟩,
           update_trivia db { T with
             current_question_index := T.current_question_index + 1,
             question_started_at := some now }) := by
  simp only [AdvanceQuestionUseCase.execute, hT, hc, hs]
  rw [if_neg (by simp), if_neg (by simp), if_pos hlt]

theorem advance_step_finish (db : DB) (tid uid : Nat) (now : Int) (T : Trivia)
    (hT : get_trivia_by_id db tid = some T)
    (hc : T.created_by_user_id = uid)
    (hs : T.status = .in_progress)
    (hge : ¬(T.current_question_index + 1 < count_trivia_questions_by_trivia db tid)) :
    AdvanceQuestionUseCase.execute db tid uid now =
      .ok (⟨tid, .finished, T.current_question_index,
            count_trivia_questions_by_trivia db tid⟩,
           update_trivia db { T with
             status := .finished,
             question_started_at := none,
             finished_at := some now }) := by
  simp only [AdvanceQuestionUseCase.execute, hT, hc, hs]
  rw [if_neg (by simp), if_neg (by simp), if_neg hge]

theorem count_update_trivia (db : DB) (T : Trivia) (tid : Nat) :
    count_trivia_questions_by_trivia (update_trivia db T) tid =
      count_trivia_questions_by_trivia db tid := rfl

theorem get_trivia_update (db : DB) (tid : Nat) (T T2 : Trivia)
    (hT : get_trivia_by_id db tid = some T) (hid : T2.id = T.id) :
    get_trivia_by_id (update_trivia db T2) tid = some T2 := by
  simp only [get_trivia_by_id, update_trivia] at hT ⊢
  exact find?_trivia_update db.trivias tid T T2 hT hid

theorem iterate_advance_partial (ts : List Int) (db : DB) (tid uid : Nat) (T : Trivia)
    (hT : get_trivia_by_id db tid = some T)
    (hc : T.created_by_user_id = uid)
    (hs : T.status = .in_progress)
    (hlen : T.current_question_index + ts.length < count_trivia_questions_by_trivia db tid) :
    ∃ T2, get_trivia_by_id (iterate_advance db tid uid ts) tid = some T2 ∧
      T2.status = .in_progress ∧
      T2.current_question_index = T.current_question_index + ts.length ∧
      T2.created_by_user_id = uid ∧
      count_trivia_questions_by_trivia (iterate_advance db tid uid ts) tid =
        count_trivia_questions_by_trivia db tid := by
  induction ts generalizing db T with
  | nil => exact ⟨T, hT, hs, by simp, hc, rfl⟩
  | cons t rest ih =>
    have hlt : T.current_question_index + 1 < count_trivia_questions_by_trivia db tid := by
      simp only [List.length_cons] at hlen
      omega
    have hstep := advance_step_more db tid uid t T hT hc hs hlt
    have hiter : iterate_advance db tid uid (t :: rest) =
        iterate_advance (apply_advance db tid uid t) tid uid rest := by
      simp [iterate_advance]
    have happ : apply_advance db tid uid t =
        update_trivia db { T with
          current_question_index := T.current_question_index + 1,
          question_started_at := some t } := by
      simp only [apply_advance, hstep]
    rw [hiter, happ]
    have hT1 := get_trivia_update db tid T
      { T with current_question_index := T.current_question_index + 1,
               question_started_at := some t } hT rfl
    have hlen1 : T.current_question_index + 1 + rest.length <
        count_trivia_questions_by_trivia
          (update_trivia db { T with
            current_question_index := T.current_question_index + 1,
            question_started_at := some t }) tid := by
      rw [count_update_trivia]
      simp only [List.length_cons] at hlen
      omega
    rcases ih (update_trivia db { T with
        current_question_index := T.current_question_index + 1,
        question_started_at := some t })
      { T with current_question_index := T.current_question_index + 1,
               question_started_at := some t }
      hT1 hc hs hlen1 with ⟨T2, h1, h2, h3, h4, h5⟩
    refine ⟨T2, h1, h2, ?_, h4, ?_⟩
    · simp only [List.length_cons]
      simp at h3
      omega
    · rw [h5, count_update_trivia]

theorem iterate_advance_finishes (ts : List Int) (db : DB) (tid uid : Nat) (T : Trivia)
    (hT : get_trivia_by_id db tid = some T)
    (hc : T.created_by_user_id = uid)
    (hs : T.status = .in_progress)
    (hne : ts ≠ [])
    (hlen : T.current_question_index + ts.length = count_trivia_questions_by_trivia db tid) :
    ∃ T2, get_trivia_by_id (iterate_advance db tid uid ts) tid = some T2 ∧
      T2.status = .finished := by
  induction ts generalizing db T with
  | nil => exact absurd rfl hne
  | cons t rest ih =>
    by_cases hrest : rest = []
    · subst hrest
      simp only [List.length_cons, List.length_nil] at hlen
      have hge : ¬(T.current_question_index + 1 < count_trivia_questions_by_trivia db tid) := by
        omega
      have hstep := advance_step_finish db tid uid t T hT hc hs hge
      have happ : apply_advance db tid uid t =
          update_trivia db { T with
            status := .finished, question_started_at := none, finished_at := some t } := by
        simp only [apply_advance, hstep]
      have hiter : iterate_advance db tid uid [t] =
          apply_advance db tid uid t := by
        simp [iterate_advance]
      rw [hiter, happ]
      have hT1 := get_trivia_update db tid T
        { T with status := .finished, question_started_at := none, finished_at := some t }
        hT rfl
      exact ⟨_, hT1, rfl⟩
    · have hlt : T.current_question_index + 1 < count_trivia_questions_by_trivia db tid := by
        simp only [List.length_cons] at hlen
        have : 1 ≤ rest.length := by
          cases rest with
          | nil => exact absurd rfl hrest
          | cons x xs => simp
        omega
      have hstep := advance_step_more db tid uid t T hT hc hs hlt
      have happ : apply_advance db tid uid t =
          update_trivia db { T with
            current_question_index := T.current_question_index + 1,
            question_started_at := some t } := by
        simp only [apply_advance, hstep]
      have hiter : iterate_advance db tid uid (t :: rest) =
          iterate_advance (apply_advance db tid uid t) tid uid rest := by
        simp [iterate_advance]
      rw [hiter, happ]
      have hT1 := get_trivia_update db tid T
        { T with current_question_index := T.current_question_index + 1,
                 question_started_at := some t } hT rfl
      apply ih
      · exact hT1
      · exact hc
      · exact hs
      · exact hrest
      · rw [count_update_trivia]
        simp only [List.length_cons] at hlen
        simp only
        omega


theorem start_trivia_count_present (db : DB) (tid : Nat) :
    ((list_participations_by_trivia db tid).countP (fun p => p.joined_at != none) =
      (list_participations_by_trivia db tid).length) ↔
    (∀ p ∈ list_participations_by_trivia db tid, p.joined_at ≠ none) := by
  rw [List.countP_eq_length]
  constructor
  · intro h p hp
    simpa using h p hp
  · intro h p hp
    simpa using h p hp

theorem start_trivia_count_ready (db : DB) (tid : Nat) :
    ((list_participations_by_trivia db tid).countP (fun p => p.status == .ready) =
      (list_participations_by_trivia db tid).length) ↔
    (∀ p ∈ list_participations_by_trivia db tid, p.status = .ready) := by
  rw [List.countP_eq_length]
  constructor
  · intro h p hp
    simpa using h p hp
  · intro h p hp
    simpa using h p hp

theorem start_trivia_success (db : DB) (tid uid : Nat) (now : Int) (T : Trivia)
    (hT : get_trivia_by_id db tid = some T)
    (h1 : T.created_by_user_id = uid) (h2 : T.status = .lobby)
    (h3 : list_participations_by_trivia db tid ≠ [])
    (h4 : ∀ p ∈ list_participations_by_trivia db tid, p.joined_at ≠ none)
    (h5 : ∀ p ∈ list_participations_by_trivia db tid, p.status = .ready) :
    StartTriviaUseCase.execute db tid uid now =
      .ok (⟨tid, .in_progress, some now, 0⟩,
           update_trivia db { T with
             status := .in_progress,
             started_at := some now,
             current_question_index := 0,
             question_started_at := some now }) := by
  simp only [StartTriviaUseCase.execute, hT]
  rw [if_neg (fun hne => hne h1), if_neg (fun hne => hne h2),
    if_neg (by simpa using h3),
    if_neg (fun hne => hne ((start_trivia_count_present db tid).mpr h4)),
    if_neg (fun hne => hne ((start_trivia_count_ready db tid).mpr h5))]

theorem start_trivia_err_forbidden (db : DB) (tid uid : Nat) (now : Int) (T : Trivia)
    (hT : get_trivia_by_id db tid = some T)
    (h1 : T.created_by_user_id ≠ uid) :
    StartTriviaUseCase.execute db tid uid now = .error .forbidden := by
  simp only [StartTriviaUseCase.execute, hT]
  rw [if_pos h1]

theorem start_trivia_err_status (db : DB) (tid uid : Nat) (now : Int) (T : Trivia)
    (hT : get_trivia_by_id db tid = some T)
    (h1 : T.created_by_user_id = uid) (h2 : T.status ≠ .lobby) :
    StartTriviaUseCase.execute db tid uid now = .error .invalid_state := by
  simp only [StartTriviaUseCase.execute, hT]
  rw [if_neg (fun hne => hne h1), if_pos h2]

theorem start_trivia_err_empty (db : DB) (tid uid : Nat) (now : Int) (T : Trivia)
    (hT : get_trivia_by_id db tid = some T)
    (h1 : T.created_by_user_id = uid) (h2 : T.status = .lobby)
    (h3 : list_participations_by_trivia db tid = []) :
    StartTriviaUseCase.execute db tid uid now = .error .invalid_state := by
  simp only [StartTriviaUseCase.execute, hT]
  rw [if_neg (fun hne => hne h1), if_neg (fun hne => hne h2), if_pos (by simp [h3])]

theorem start_trivia_err_present (db : DB) (tid uid : Nat) (now : Int) (T : Trivia)
    (hT : get_trivia_by_id db tid = some T)
    (h1 : T.created_by_user_id = uid) (h2 : T.status = .lobby)
    (h3 : list_participations_by_trivia db tid ≠ [])
    (h4 : ¬(∀ p ∈ list_participations_by_trivia db tid, p.joined_at ≠ none)) :
    StartTriviaUseCase.execute db tid uid now = .error .conflict := by
  simp only [StartTriviaUseCase.execute, hT]
  rw [if_neg (fun hne => hne h1), if_neg (fun hne => hne h2),
    if_neg (by simpa using h3),
    if_pos (fun heq => h4 ((start_trivia_count_present db tid).mp heq))]

theorem start_trivia_err_ready (db : DB) (tid uid : Nat) (now : Int) (T : Trivia)
    (hT : get_trivia_by_id db tid = some T)
    (h1 : T.created_by_user_id = uid) (h2 : T.status = .lobby)
    (h3 : list_participations_by_trivia db tid ≠ [])
    (h4 : ∀ p ∈ list_participations_by_trivia db tid, p.joined_at ≠ none)
    (h5 : ¬(∀ p ∈ list_participations_by_trivia db tid, p.status = .ready)) :
    StartTriviaUseCase.execute db tid uid now = .error .conflict := by
  simp only [StartTriviaUseCase.execute, hT]
  rw [if_neg (fun hne => hne h1), if_neg (fun hne => hne h2),
    if_neg (by simpa using h3),
    if_neg (fun hne => hne ((start_trivia_count_present db tid).mpr h4)),
    if_pos (fun heq => h5 ((start_trivia_count_ready db tid).mp heq))]

/-- Claim C4 (amended): StartTrivia succeeds iff the caller is the trivia's
creator, the status is LOBBY, the set of assigned participations is non-empty,
and every assigned participation is present and ready — where, in the code,
*present* means `joined_at` is non-null (the presence TTL over `last_seen_at`
is not consulted by this use case) and *ready* means status = READY. Each
violation produces the error kind the source raises (Forbidden, InvalidState,
InvalidState, Conflict, Conflict, in the source's check order), and an error
returns no new state, so nothing is mutated; on success the status becomes
IN_PROGRESS, started-at and question-started-at are set to now, and
current-question-index becomes 0, with the participations untouched. -/
theorem start_trivia_guards (db : DB) (tid uid : Nat) (now : Int) (T : Trivia)
    (hT : get_trivia_by_id db tid = some T) :
    ((∃ r, StartTriviaUseCase.execute db tid uid now = .ok r) ↔
      (T.created_by_user_id = uid ∧ T.status = .lobby ∧
       list_participations_by_trivia db tid ≠ [] ∧
       (∀ p ∈ list_participations_by_trivia db tid, p.joined_at ≠ none) ∧
       (∀ p ∈ list_participations_by_trivia db tid, p.status = .ready))) ∧
    (T.created_by_user_id = uid → T.status = .lobby →
     list_participations_by_trivia db tid ≠ [] →
     (∀ p ∈ list_participations_by_trivia db tid, p.joined_at ≠ none) →
     (∀ p ∈ list_participations_by_trivia db tid, p.status = .ready) →
      StartTriviaUseCase.execute db tid uid now =
        .ok (⟨tid, .in_progress, some now, 0⟩,
             update_trivia db { T with
               status := .in_progress,
               started_at := some now,
               current_question_index := 0,
               question_started_at := some now })) ∧
    (T.created_by_user_id ≠ uid →
      StartTriviaUseCase.execute db tid uid now = .error .forbidden) ∧
    (T.created_by_user_id = uid → T.status ≠ .lobby →
      StartTriviaUseCase.execute db tid uid now = .error .invalid_state) ∧
    (T.created_by_user_id = uid → T.status = .lobby →
     list_participations_by_trivia db tid = [] →
      StartTriviaUseCase.execute db tid uid now = .error .invalid_state) ∧
    (T.created_by_user_id = uid → T.status = .lobby →
     list_participations_by_trivia db tid ≠ [] →
     ¬(∀ p ∈ list_participations_by_trivia db tid, p.joined_at ≠ none) →
      StartTriviaUseCase.execute db tid uid now = .error .conflict) ∧
    (T.created_by_user_id = uid → T.status = .lobby →
     list_participations_by_trivia db tid ≠ [] →
     (∀ p ∈ list_participations_by_trivia db tid, p.joined_at ≠ none) →
     ¬(∀ p ∈ list_participations_by_trivia db tid, p.status = .ready) →
      StartTriviaUseCase.execute db tid uid now = .error .conflict) := by
  refine ⟨⟨?_, ?_⟩,
    fun h1 h2 h3 h4 h5 => start_trivia_success db tid uid now T hT h1 h2 h3 h4 h5,
    fun h1 => start_trivia_err_forbidden db tid uid now T hT h1,
    fun h1 h2 => start_trivia_err_status db tid uid now T hT h1 h2,
    fun h1 h2 h3 => start_trivia_err_empty db tid uid now T hT h1 h2 h3,
    fun h1 h2 h3 h4 => start_trivia_err_present db tid uid now T hT h1 h2 h3 h4,
    fun h1 h2 h3 h4 h5 => start_trivia_err_ready db tid uid now T hT h1 h2 h3 h4 h5⟩
  · rintro ⟨r, hr⟩
    by_cases h1 : T.created_by_user_id = uid
    case neg =>
      rw [start_trivia_err_forbidden db tid uid now T hT h1] at hr
      exact absurd hr (by simp)
    by_cases h2 : T.status = .lobby
    case neg =>
      rw [start_trivia_err_status db tid uid now T hT h1 h2] at hr
      exact absurd hr (by simp)
    by_cases h3 : list_participations_by_trivia db tid = []
    case pos =>
      rw [start_trivia_err_empty db tid uid now T hT h1 h2 h3] at hr
      exact absurd hr (by simp)
    by_cases h4 : ∀ p ∈ list_participations_by_trivia db tid, p.joined_at ≠ none
    case neg =>
      rw [start_trivia_err_present db tid uid now T hT h1 h2 h3 h4] at hr
      exact absurd hr (by simp)
    by_cases h5 : ∀ p ∈ list_participations_by_trivia db tid, p.status = .ready
    case neg =>
      rw [start_trivia_err_ready db tid uid now T hT h1 h2 h3 h4 h5] at hr
      exact absurd hr (by simp)
    exact ⟨h1, h2, h3, h4, h5⟩
  · rintro ⟨h1, h2, h3, h4, h5⟩
    exact ⟨_, start_trivia_success db tid uid now T hT h1 h2 h3 h4 h5⟩


/-- Claim C9 (amended): the player rows returned by GetLobby and
GetAdminLobby are deterministically ordered, sorted by player name ascending;
ties between equal names keep the underlying repository order (participations
ordered by score descending, stable), they are NOT broken by user id. -/
theorem lobby_players_sorted (db : DB) (tid : Nat) (now : Int) :
    (∀ dto, GetAdminLobbyUseCase.execute db tid now = .ok dto →
      dto.players.Sorted (fun a b => a.name ≤ b.name)) ∧
    (∀ l, GetAdminLobbyUseCase.execute_for_player db tid now = .ok l →
      l.players.Sorted (fun a b => a.name ≤ b.name)) := by
  have hmain : ∀ dto, GetAdminLobbyUseCase.execute db tid now = .ok dto →
      dto.players.Sorted (fun a b => a.name ≤ b.name) := by
    intro dto h
    simp only [GetAdminLobbyUseCase.execute] at h
    split at h
    next => exact absurd h (by simp)
    next T hT =>
      cases h
      refine List.Pairwise.imp ?_ (List.sorted_insertionSort _ _)
      intro a b hab
      exact String.le_iff_toList_le.mpr hab
  refine ⟨hmain, ?_⟩
  intro l h
  simp only [GetAdminLobbyUseCase.execute_for_player] at h
  split at h
  next e he => exact absurd h (by simp)
  next dto hdto =>
    cases h
    exact hmain dto hdto

/-- Counterexample to Claim C9 as stated: two players both named "Alex",
user ids 5 and 6, where the id-6 participation has the higher score; the lobby
returns [6, 5] (name sort is stable over the score-descending repository
order), not [5, 6] as tie-breaking by user id would require. -/
theorem lobby_order_counterexample :
    (GetAdminLobbyUseCase.execute lobby_cex_db 1 100).map
        (fun dto => dto.players.map (fun r => (r.user_id, r.name))) =
      .ok [(6, "Alex"), (5, "Alex")] := by rfl


/-- Claim C10: for every trivia and user with an existing participation,
Heartbeat only sets that participation's last-seen-at to the current time: the
updated row differs only in `last_seen_at` (record update), every other
participation is unchanged, and the Trivia, Answer and TriviaQuestion tables
are untouched. -/
theorem heartbeat_frame (db : DB) (tid uid : Nat) (now : Int)
    (T : Trivia) (P : Participation)
    (hT : get_trivia_by_id db tid = some T)
    (hP : get_participation_by_trivia_and_user db tid uid = some P) :
    UpdateHeartbeatUseCase.execute db tid uid now =
      .ok (update_participation db { P with last_seen_at := some now }) ∧
    (update_participation db { P with last_seen_at := some now }).trivias = db.trivias ∧
    (update_participation db { P with last_seen_at := some now }).answers = db.answers ∧
    (update_participation db { P with last_seen_at := some now }).trivia_questions =
      db.trivia_questions ∧
    (update_participation db { P with last_seen_at := some now }).participations =
      db.participations.map (fun q =>
        if q.id = P.id then { P with last_seen_at := some now } else q) ∧
    get_participation_by_trivia_and_user
        (update_participation db { P with last_seen_at := some now }) tid uid =
      some { P with last_seen_at := some now } ∧
    (∀ q ∈ db.participations, q.id ≠ P.id →
      q ∈ (update_participation db { P with last_seen_at := some now }).participations) := by
  have hexec : UpdateHeartbeatUseCase.execute db tid uid now =
      .ok (update_participation db { P with last_seen_at := some now }) := by
    simp only [UpdateHeartbeatUseCase.execute, hT, hP]
  have hmatch : (fun p => p.trivia_id == tid && p.user_id == uid)
      ({ P with last_seen_at := some now } : Participation) = true := by
    have h := (participation_find_mem_match db tid uid P hP).2
    simpa using h
  refine ⟨hexec, rfl, rfl, rfl, ?_, ?_, ?_⟩
  · simp only [update_participation]
    refine List.map_congr_left (fun q _ => ?_)
    by_cases hq : q.id = P.id
    · rw [if_pos (by simpa using hq), if_pos hq]
    · rw [if_neg (by simpa using hq), if_neg hq]
  · simp only [get_participation_by_trivia_and_user, update_participation] at hP ⊢
    exact find?_participation_update db.participations _ P _ hP hmatch rfl
  · intro q hq hqne
    simp only [update_participation, List.mem_map]
    exact ⟨q, hq, by rw [if_neg (by simpa using hqne)]⟩

/-- Claim C5 (amended): validate-ticket of an unknown token fails; an
expired token fails and is removed from the store; a valid unexpired token
returns the stored (trivia-id, user-id) pair but is NOT consumed — the store
is returned unchanged, so a second validate-ticket of the same token succeeds
with the same pair. -/
theorem validate_ticket_spec (st : TicketStore) (token : Nat) (now : Int) :
    (st.tickets.find? (fun t => t.token == token) = none →
      SSEManager.validate_ticket st token now = (none, st)) ∧
    (∀ tk, st.tickets.find? (fun t => t.token == token) = some tk →
      tk.expires_at < now →
      SSEManager.validate_ticket st token now =
        (none, ⟨st.tickets.filter (fun u => u.token != token)⟩)) ∧
    (∀ tk, st.tickets.find? (fun t => t.token == token) = some tk →
      ¬(tk.expires_at < now) →
      SSEManager.validate_ticket st token now =
        (some (tk.trivia_id, tk.user_id), st) ∧
      SSEManager.validate_ticket (SSEManager.validate_ticket st token now).2 token now =
        (some (tk.trivia_id, tk.user_id), st)) := by
  refine ⟨?_, ?_, ?_⟩
  · intro h
    simp only [SSEManager.validate_ticket, h]
  · intro tk h hexp
    simp only [SSEManager.validate_ticket, h]
    rw [if_pos hexp]
  · intro tk h hexp
    have h1 : SSEManager.validate_ticket st token now = (some (tk.trivia_id, tk.user_id), st) := by
      simp only [SSEManager.validate_ticket, h]
      rw [if_neg hexp]
    refine ⟨h1, ?_⟩
    rw [h1]
    exact h1


/-- Claim C6 (amended): for every existing trivia, after ResetTrivia every
Answer attached to that trivia's participations is deleted, every one of those
participations' scores is 0, and the trivia is put back to LOBBY with
current-question-index 0 and all timing fields (started-at, finished-at,
question-started-at) null — but the lifeline flags are NOT cleared: each
participation keeps its fifty-fifty-used and fifty-fifty-question-id values
(only `score` is overwritten, as the state equation below shows). -/
theorem reset_trivia_state (db : DB) (tid : Nat) (T : Trivia)
    (hT : get_trivia_by_id db tid = some T) :
    ∃ db1, reset_trivia db tid = .ok db1 ∧
      db1 = update_trivia { db with
          answers := db.answers.filter (fun a =>
            !(((db.participations.filter (fun p => p.trivia_id == tid)).map
                (fun p => p.id)).contains a.participation_id)),
          participations := db.participations.map (fun p =>
            if p.trivia_id == tid then { p with score := 0 } else p) }
        { T with
          status := .lobby,
          current_question_index := 0,
          question_started_at := none,
          started_at := none,
          finished_at := none } ∧
      (∀ p ∈ db1.participations, p.trivia_id = tid → p.score = 0) ∧
      (∀ a ∈ db1.answers, a.participation_id ∉
        ((db.participations.filter (fun p => p.trivia_id == tid)).map (fun p => p.id))) ∧
      get_trivia_by_id db1 tid = some { T with
        status := .lobby,
        current_question_index := 0,
        question_started_at := none,
        started_at := none,
        finished_at := none } := by
  have hok : reset_trivia db tid = .ok (update_trivia { db with
      answers := db.answers.filter (fun a =>
        !(((db.participations.filter (fun p => p.trivia_id == tid)).map
            (fun p => p.id)).contains a.participation_id)),
      participations := db.participations.map (fun p =>
        if p.trivia_id == tid then { p with score := 0 } else p) }
    { T with
      status := .lobby,
      current_question_index := 0,
      question_started_at := none,
      started_at := none,
      finished_at := none }) := by
    simp only [reset_trivia, hT]
  refine ⟨_, hok, rfl, ?_, ?_, ?_⟩
  · intro p hp hptid
    rcases List.mem_map.mp hp with ⟨q, hq, rfl⟩
    by_cases hqt : (q.trivia_id == tid) = true
    · rw [if_pos hqt]
    · rw [if_neg hqt] at hptid ⊢
      exact absurd (by simpa using hptid) (by simpa using hqt)
  · intro a ha
    have hcond := List.of_mem_filter ha
    intro hmem
    rw [show a.participation_id ∈ ((db.participations.filter
        (fun p => p.trivia_id == tid)).map (fun p => p.id)) ↔
        ((db.participations.filter (fun p => p.trivia_id == tid)).map
          (fun p => p.id)).contains a.participation_id = true from by
      simp [List.contains, List.elem_eq_mem]] at hmem
    rw [hmem] at hcond
    simp at hcond
  · exact get_trivia_update _ tid T _ hT rfl

theorem length_filter_split {α : Type} (l : List α) (p : α → Bool) :
    (l.filter p).length + (l.filter (fun a => !(p a))).length = l.length := by
  induction l with
  | nil => rfl
  | cons a l ih =>
    cases hpa : p a <;> simp [List.filter_cons, hpa] <;> omega

/-- Claim C8: for every successful UseFiftyFifty call (trivia IN_PROGRESS,
participation with fifty-fifty-used = false, addressed question is the current
one, no prior Answer, ≥4 options with exactly one correct): the returned
allowed-options list has length 2, contains the correct option, and contains
exactly one option drawn from the question's incorrect options (the list is
the pair [correct, chosen-incorrect] in one of its two orders); the
participation's fifty-fifty-used becomes true and fifty-fifty-question-id
becomes the current question id, and a second UseFiftyFifty for the same
participation in the same trivia — whatever question, draw, or order it is
given — fails with Conflict. -/
theorem use_fifty_fifty_spec (db : DB) (tid qid uid : Nat) (pick : Nat) (swap : Bool)
    (T : Trivia) (P : Participation) (TQ : TriviaQuestion) (Q : Question)
    (c : QuestionOption)
    (hT : get_trivia_by_id db tid = some T)
    (hs : T.status = .in_progress)
    (hP : get_participation_by_trivia_and_user db tid uid = some P)
    (hused : P.fifty_fifty_used = false)
    (hQ : get_question_by_id db qid = some Q)
    (hTQ : get_trivia_question_by_trivia_and_order db tid T.current_question_index = some TQ)
    (hcur : TQ.question_id = qid)
    (hA : get_answer_by_participation_and_trivia_question db P.id TQ.id = none)
    (hlen : 4 ≤ (list_options_by_question_id db qid).length)
    (hone : ((list_options_by_question_id db qid).filter (fun o => o.is_correct)).length = 1)
    (hc : (list_options_by_question_id db qid).find? (fun o => o.is_correct) = some c) :
    ∃ allowed db1,
      UseFiftyFiftyLifelineUseCase.execute db tid qid uid pick swap =
        .ok (⟨allowed, true⟩, db1) ∧
      allowed.length = 2 ∧
      OptionDTO.mk c.id c.text ∈ allowed ∧ c.is_correct = true ∧
      (∃ o ∈ list_options_by_question_id db qid, o.is_correct = false ∧
        OptionDTO.mk o.id o.text ∈ allowed ∧
        (allowed = [OptionDTO.mk c.id c.text, OptionDTO.mk o.id o.text] ∨
         allowed = [OptionDTO.mk o.id o.text, OptionDTO.mk c.id c.text])) ∧
      db1 = update_participation db { P with
        fifty_fifty_used := true,
        fifty_fifty_question_id := some qid } ∧
      (∀ qid2 pick2 swap2,
        UseFiftyFiftyLifelineUseCase.execute db1 tid qid2 uid pick2 swap2 =
          .error .conflict) := by
  have hsplit := length_filter_split (list_options_by_question_id db qid)
    (fun o => o.is_correct)
  have hinc : 1 ≤ ((list_options_by_question_id db qid).filter
      (fun o => !o.is_correct)).length := by omega
  have hlt : pick % ((list_options_by_question_id db qid).filter
      (fun o => !o.is_correct)).length < ((list_options_by_question_id db qid).filter
      (fun o => !o.is_correct)).length := Nat.mod_lt _ (by omega)
  have hexec : UseFiftyFiftyLifelineUseCase.execute db tid qid uid pick swap =
      .ok (⟨(if swap then
               [((list_options_by_question_id db qid).filter (fun o => !o.is_correct)).get
                  ⟨pick % ((list_options_by_question_id db qid).filter
                    (fun o => !o.is_correct)).length, hlt⟩, c]
             else
               [c, ((list_options_by_question_id db qid).filter (fun o => !o.is_correct)).get
                  ⟨pick % ((list_options_by_question_id db qid).filter
                    (fun o => !o.is_correct)).length, hlt⟩]).map
              (fun o => OptionDTO.mk o.id o.text), true⟩,
           update_participation db { P with
             fifty_fifty_used := true,
             fifty_fifty_question_id := some qid }) := by
    simp only [UseFiftyFiftyLifelineUseCase.execute, hT, hP, hQ, hTQ, hA, hc]
    rw [if_neg (fun h => h hs), if_neg (by simp [hused]), if_neg (fun h => h hcur),
      if_neg (by omega), if_neg (by omega),
      List.getElem?_eq_getElem hlt]
    simp only [List.get_eq_getElem]
  refine ⟨_, _, hexec, ?_, ?_, ?_, ?_, rfl, ?_⟩
  · cases swap <;> simp
  · cases swap <;> simp
  · have := List.find?_some hc
    simpa using this
  · refine ⟨((list_options_by_question_id db qid).filter (fun o => !o.is_correct)).get
      ⟨pick % ((list_options_by_question_id db qid).filter
        (fun o => !o.is_correct)).length, hlt⟩, ?_, ?_, ?_, ?_⟩
    · have hmem := List.get_mem ((list_options_by_question_id db qid).filter
        (fun o => !o.is_correct)) _ hlt
      exact List.mem_of_mem_filter hmem
    · have hmem := List.get_mem ((list_options_by_question_id db qid).filter
        (fun o => !o.is_correct)) _ hlt
      have := List.of_mem_filter hmem
      simpa using this
    · cases swap <;> simp
    · cases swap <;> simp
  · intro qid2 pick2 swap2
    have hT1 : get_trivia_by_id (update_participation db { P with
        fifty_fifty_used := true,
        fifty_fifty_question_id := some qid }) tid = some T := hT
    have hm1 : (fun p => p.trivia_id == tid && p.user_id == uid)
        ({ P with fifty_fifty_used := true,
                  fifty_fifty_question_id := some qid } : Participation) = true := by
      have h := (participation_find_mem_match db tid uid P hP).2
      simpa using h
    have hP1 : get_participation_by_trivia_and_user (update_participation db { P with
        fifty_fifty_used := true,
        fifty_fifty_question_id := some qid }) tid uid =
        some { P with fifty_fifty_used := true, fifty_fifty_question_id := some qid } := by
      simp only [get_participation_by_trivia_and_user, update_participation] at hP ⊢
      exact find?_participation_update db.participations _ P _ hP hm1 rfl
    simp only [UseFiftyFiftyLifelineUseCase.execute, hT1, hP1]
    rw [if_neg (fun h => h hs)]
    simp


/-- Claim C7 (amended): for a trivia in status IN_PROGRESS with N
trivia-question bindings, AdvanceQuestion called by the creator either (if
current-question-index+1 < N) increments the index and resets
question-started-at to now keeping status IN_PROGRESS, or otherwise sets
status FINISHED, question-started-at null, finished-at now; consequently,
when N ≥ 1, after exactly N Advance calls from the first IN_PROGRESS state
(index 0) the trivia is FINISHED, and after any k < N calls it is still
IN_PROGRESS at index k. (For N = 0 the unamended claim fails: the trivia is
still IN_PROGRESS after zero calls and needs one call to finish.) -/
theorem advance_question_progression (db : DB) (tid uid : Nat) (now : Int) (T : Trivia)
    (hT : get_trivia_by_id db tid = some T)
    (hcreator : T.created_by_user_id = uid)
    (hstatus : T.status = .in_progress) :
    (T.current_question_index + 1 < count_trivia_questions_by_trivia db tid →
      AdvanceQuestionUseCase.execute db tid uid now =
        .ok (⟨tid, .in_progress, T.current_question_index + 1,
              count_trivia_questions_by_trivia db tid⟩,
             update_trivia db { T with
               current_question_index := T.current_question_index + 1,
               question_started_at := some now })) ∧
    (¬(T.current_question_index + 1 < count_trivia_questions_by_trivia db tid) →
      AdvanceQuestionUseCase.execute db tid uid now =
        .ok (⟨tid, .finished, T.current_question_index,
              count_trivia_questions_by_trivia db tid⟩,
             update_trivia db { T with
               status := .finished,
               question_started_at := none,
               finished_at := some now })) ∧
    (T.current_question_index = 0 →
      1 ≤ count_trivia_questions_by_trivia db tid →
      ∀ ts : List Int, ts.length = count_trivia_questions_by_trivia db tid →
        (∃ T2, get_trivia_by_id (iterate_advance db tid uid ts) tid = some T2 ∧
          T2.status = .finished) ∧
        (∀ k, k < count_trivia_questions_by_trivia db tid →
          ∃ T3, get_trivia_by_id (iterate_advance db tid uid (ts.take k)) tid = some T3 ∧
            T3.status = .in_progress ∧ T3.current_question_index = k)) := by
  refine ⟨fun hlt => advance_step_more db tid uid now T hT hcreator hstatus hlt,
    fun hge => advance_step_finish db tid uid now T hT hcreator hstatus hge,
    fun hidx hN ts hts => ⟨?_, ?_⟩⟩
  · apply iterate_advance_finishes ts db tid uid T hT hcreator hstatus
    · intro hnil
      rw [hnil] at hts
      simp at hts
      omega
    · rw [hidx, hts]
      simp
  · intro k hk
    have htk : (ts.take k).length = k := by
      rw [List.length_take]
      omega
    have h := iterate_advance_partial (ts.take k) db tid uid T hT hcreator hstatus
      (by rw [htk, hidx]; omega)
    rcases h with ⟨T2, h1, h2, h3, _, _⟩
    refine ⟨T2, h1, h2, ?_⟩
    rw [h3, htk, hidx]
    omega


/-- Claim C1: starting from any well-formed state (distinct participation
primary keys, every persisted score equal to the COALESCE-sum of its answer
rows — e.g. any state of fresh participations with score 0 and no answers),
after any sequence of SubmitAnswer, AdvanceQuestion and Reset operations —
hence also after every single successful SubmitAnswer, which is a prefix of
such a sequence — every participation's persisted score equals
`COALESCE(SUM(earned_points),0)` over that participation's Answer rows
(`score_invariant`); scores are recomputed from the answer log, never
incremented in place. -/
theorem participation_score_matches_answer_log (db : DB) (ops : List Op)
    (hnodup : participation_ids_nodup db) (hinv : score_invariant db) :
    score_invariant (apply_ops db ops) :=
  (apply_ops_preserves ops db hnodup hinv).2

/-- Witness for C1 at a concrete state and operation sequence. -/
theorem participation_score_matches_answer_log_witness :
    participation_ids_nodup wdb ∧ score_invariant wdb ∧
      score_invariant (apply_ops wdb
        [Op.submit 1 5 31 105 77, Op.advance 1 9 140, Op.reset 1]) :=
  ⟨by decide, by decide,
   participation_score_matches_answer_log wdb
     [Op.submit 1 5 31 105 77, Op.advance 1 9 140, Op.reset 1] (by decide) (by decide)⟩

/-- Witness for C2: resubmitting (with a different option) after a stored
answer returns the stored outcome and leaves the state unchanged. -/
theorem submit_answer_idempotent_witness :
    SubmitAnswerUseCase.execute wdb2 1 5 32 200 99 =
      .ok (⟨1, 20, 31, true, 2, 2, 0⟩, wdb2) :=
  submit_answer_idempotent wdb2 1 5 32 200 99
    ⟨1, 9, .in_progress, 0, some 100, some 100, none⟩
    ⟨10, 1, 5, .ready, 2, some 100, some 100, none, some 100, false, none⟩
    ⟨40, 1, 20, 0, 30⟩ ⟨20, "q1", .medium⟩ ⟨32, 20, "b", false⟩
    ⟨70, 10, 40, 31, true, 2, 105⟩ 100 rfl rfl rfl rfl rfl rfl rfl rfl

/-- Witness for C3: a correct in-time submission earns the MEDIUM score 2. -/
theorem submit_answer_scoring_witness :
    (SubmitAnswerUseCase.execute wdb 1 5 31 105 77).map
      (fun r => (r.1.is_correct, r.1.earned_points)) = .ok (true, 2) := by
  rcases submit_answer_scoring wdb 1 5 31 105 77
      ⟨1, 9, .in_progress, 0, some 100, some 100, none⟩
      ⟨10, 1, 5, .ready, 0, some 100, some 100, none, some 100, false, none⟩
      ⟨40, 1, 20, 0, 30⟩ ⟨20, "q1", .medium⟩ ⟨31, 20, "a", true⟩
      100 rfl rfl rfl rfl rfl rfl rfl rfl with
    ⟨dto, db1, heq, hpts, htimeout, hcorrect, hwrong, hlate⟩
  rcases hcorrect (by decide) rfl with ⟨h1, h2⟩
  rw [heq]
  simp [Except.map, h1, h2, hpts.2.1]

/-- Witness for C4: a LOBBY trivia whose single participation is joined and
ready starts successfully. -/
theorem start_trivia_guards_witness :
    get_trivia_by_id wdb_lobby 1 = some ⟨1, 9, .lobby, 0, none, none, none⟩ ∧
    (∃ r, StartTriviaUseCase.execute wdb_lobby 1 9 100 = .ok r) := by
  have h := start_trivia_guards wdb_lobby 1 9 100 ⟨1, 9, .lobby, 0, none, none, none⟩ rfl
  exact ⟨rfl, h.1.mpr ⟨rfl, rfl, by decide, by decide, by decide⟩⟩

/-- Counterexample to Claim C4 as stated: a LOBBY trivia whose single
assigned participation is READY with `joined_at` set but `last_seen_at` null —
so no participation is present within PRESENCE_TTL of now — still starts
successfully, because the source checks `joined_at is not None`, not the
presence TTL. -/
theorem start_trivia_presence_counterexample :
    (StartTriviaUseCase.execute start_cex_db 1 9 1000).map (fun r => r.1) =
      .ok ⟨1, .in_progress, some 1000, 0⟩ ∧
    (∀ p ∈ list_participations_by_trivia start_cex_db 1, p.last_seen_at = none) := by
  constructor
  · decide
  · decide

/-- Counterexample to Claim C5 as stated: after a first successful
validate-ticket, a second validate-ticket of the same token succeeds again —
the ticket is not consumed. -/
theorem validate_ticket_single_use_counterexample :
    (SSEManager.validate_ticket ticket_cex_store 42 50).1 = some (1, some 5) ∧
    (SSEManager.validate_ticket
        (SSEManager.validate_ticket ticket_cex_store 42 50).2 42 60).1 =
      some (1, some 5) := by decide

/-- Witness for C5: validating an unexpired ticket returns the stored pair
and leaves the store unchanged. -/
theorem validate_ticket_spec_witness :
    SSEManager.validate_ticket ticket_cex_store 42 50 =
      (some (1, some 5), ticket_cex_store) :=
  ((validate_ticket_spec ticket_cex_store 42 50).2.2 ⟨42, 1, some 5, 100⟩ rfl
    (by decide)).1

/-- Counterexample to Claim C6 as stated: after ResetTrivia, a
participation that had used its 50/50 lifeline still has
fifty-fifty-used = true and fifty-fifty-question-id set (its score is zeroed,
but the lifeline flags are not cleared). -/
theorem reset_lifeline_counterexample :
    (reset_trivia reset_cex_db 1).map (fun db1 =>
      db1.participations.map (fun p =>
        (p.score, p.fifty_fifty_used, p.fifty_fifty_question_id))) =
      .ok [(0, true, some 20)] := by decide

/-- Witness for C6: resetting a finished trivia deletes its answers and
returns it to LOBBY. -/
theorem reset_trivia_state_witness :
    (reset_trivia reset_cex_db 1).map (fun db1 =>
      (db1.answers, (get_trivia_by_id db1 1).map (fun t => t.status))) =
      .ok ([], some .lobby) := by
  rcases reset_trivia_state reset_cex_db 1 ⟨1, 9, .finished, 0, none, some 100, some 200⟩
      rfl with ⟨db1, hok, hdb1, hscores, hans, htriv⟩
  rw [hok]
  rw [hdb1]
  decide

/-- Counterexample to Claim C7 as stated: a trivia with zero bindings can
be started (Start does not require bindings), reaching the first IN_PROGRESS
state with N = 0; after exactly N = 0 Advance calls its status is still
IN_PROGRESS, not FINISHED. -/
theorem advance_exactly_n_counterexample :
    (StartTriviaUseCase.execute advance_cex_db 1 9 100).map (fun r =>
      (count_trivia_questions_by_trivia r.2 1,
       (get_trivia_by_id (iterate_advance r.2 1 9 []) 1).map (fun t => t.status))) =
      .ok (0, some .in_progress) := by decide

/-- Witness for C7: with one binding, a single Advance finishes the trivia. -/
theorem advance_question_progression_witness :
    (get_trivia_by_id (iterate_advance wdb 1 9 [140]) 1).map (fun t => t.status) =
      some .finished := by
  have h := advance_question_progression wdb 1 9 140
    ⟨1, 9, .in_progress, 0, some 100, some 100, none⟩ rfl rfl rfl
  rcases (h.2.2 rfl (by decide) [140] (by decide)).1 with ⟨T2, h1, h2⟩
  rw [h1]
  simp [h2]

/-- Witness for C8: the lifeline returns two options and marks itself used. -/
theorem use_fifty_fifty_spec_witness :
    (UseFiftyFiftyLifelineUseCase.execute wdb 1 20 5 0 false).map
      (fun r => (r.1.allowed_options.length, r.1.fifty_fifty_used)) = .ok (2, true) := by
  rcases use_fifty_fifty_spec wdb 1 20 5 0 false
      ⟨1, 9, .in_progress, 0, some 100, some 100, none⟩
      ⟨10, 1, 5, .ready, 0, some 100, some 100, none, some 100, false, none⟩
      ⟨40, 1, 20, 0, 30⟩ ⟨20, "q1", .medium⟩ ⟨31, 20, "a", true⟩
      rfl rfl rfl rfl rfl rfl rfl rfl (by decide) (by decide) rfl with
    ⟨allowed, db1, hexec, hlen2, _, _, _, _, _⟩
  rw [hexec]
  simp [Except.map, hlen2]

/-- Witness for C9: the players list computed for a concrete lobby is
sorted by name. -/
theorem lobby_players_sorted_witness :
    List.Sorted (fun a b => a.name ≤ b.name)
      [LobbyPlayerDTO.mk 6 "Alex" true true, LobbyPlayerDTO.mk 5 "Alex" true true] := by
  have h := (lobby_players_sorted lobby_cex_db 1 100).1
  have hexec : GetAdminLobbyUseCase.execute lobby_cex_db 1 100 =
      .ok ⟨2, 2, 2, [LobbyPlayerDTO.mk 6 "Alex" true true,
                     LobbyPlayerDTO.mk 5 "Alex" true true]⟩ := by rfl
  exact h _ hexec

/-- Witness for C10: a heartbeat rewrites only last-seen-at. -/
theorem heartbeat_frame_witness :
    UpdateHeartbeatUseCase.execute wdb 1 5 123 =
      .ok (update_participation wdb
        ⟨10, 1, 5, .ready, 0, some 100, some 100, none, some 123, false, none⟩) := by
  have h := heartbeat_frame wdb 1 5 123
    ⟨1, 9, .in_progress, 0, some 100, some 100, none⟩
    ⟨10, 1, 5, .ready, 0, some 100, some 100, none, some 100, false, none⟩ rfl rfl
  exact h.1

end TalaTrivia
